import Mathlib

/-!
Shallow embedding of `generate_guest_pages.py`: per-guest QR payload, HTML
landing page and result-row generation, with the phone-normalisation helper
`clean_phone` and the library calls (`urljoin`, PIL resize) modelled where the
repository only calls into them.
-/

namespace GuestPages

/-- Python `str.replace(c, "")` for a single-character pattern: every
occurrence of `c` is removed. -/
def replaceDel (s : String) (c : Char) : String :=
  ⟨s.data.filter (fun a => a != c)⟩

/-- `clean_phone` from the source: strip `+`, dashes, spaces, parentheses via
chained single-character `replace(_, "")` calls, in source order. -/
def clean_phone (phone : String) : String :=
  replaceDel (replaceDel (replaceDel (replaceDel (replaceDel phone '+') '-') ' ') '(') ')'

/-- The five characters `clean_phone` deletes. -/
def phoneStripChars : List Char := ['+', '-', ' ', '(', ')']

/-- Decimal digits of `n`, least significant first, with explicit fuel so the
recursion is structural. -/
def decDigits : Nat → Nat → List Nat
  | 0, _ => []
  | _ + 1, 0 => []
  | f + 1, n + 1 => ((n + 1) % 10) :: decDigits f ((n + 1) / 10)

/-- Python `str(n)` / f-string formatting of a non-negative integer: its
decimal numeral. -/
def natToDec (n : Nat) : String :=
  if n = 0 then "0" else ⟨((decDigits n n).map Nat.digitChar).reverse⟩

/-- Value of a little-endian decimal digit list. -/
def decVal : List Nat → Nat
  | [] => 0
  | d :: ds => d + 10 * decVal ds

theorem decVal_decDigits : ∀ f n, n ≤ f → decVal (decDigits f n) = n := by
  intro f
  induction f with
  | zero =>
    intro n h
    interval_cases n
    simp [decDigits, decVal]
  | succ f ih =>
    intro n h
    cases n with
    | zero => simp [decDigits, decVal]
    | succ m =>
      have hdiv : (m + 1) / 10 ≤ f := by
        have h1 : (m + 1) / 10 < m + 1 := Nat.div_lt_self (Nat.succ_pos m) (by norm_num)
        omega
      simp [decDigits, decVal, ih _ hdiv]
      omega

theorem decDigits_lt10 : ∀ f n d, d ∈ decDigits f n → d < 10 := by
  intro f
  induction f with
  | zero => intro n d h; simp [decDigits] at h
  | succ f ih =>
    intro n d h
    cases n with
    | zero => simp [decDigits] at h
    | succ m =>
      simp [decDigits] at h
      rcases h with h | h
      · omega
      · exact ih _ _ h

theorem digitChar_inj_lt10 :
    ∀ a, a < 10 → ∀ b, b < 10 → Nat.digitChar a = Nat.digitChar b → a = b := by
  decide

theorem map_digitChar_inj :
    ∀ l1 l2 : List Nat, (∀ d ∈ l1, d < 10) → (∀ d ∈ l2, d < 10) →
      l1.map Nat.digitChar = l2.map Nat.digitChar → l1 = l2 := by
  intro l1
  induction l1 with
  | nil =>
    intro l2 _ _ h
    cases l2 with
    | nil => rfl
    | cons b t => simp at h
  | cons a t ih =>
    intro l2 h1 h2 h
    cases l2 with
    | nil => simp at h
    | cons b t2 =>
      simp at h
      obtain ⟨hab, ht⟩ := h
      have ha : a < 10 := h1 a (by simp)
      have hb : b < 10 := h2 b (by simp)
      have : a = b := digitChar_inj_lt10 a ha b hb hab
      subst this
      have := ih t2 (fun d hd => h1 d (by simp [hd])) (fun d hd => h2 d (by simp [hd])) ht
      simp [this]

theorem natToDec_succ_inj (m n : Nat) (h : natToDec (m + 1) = natToDec (n + 1)) :
    m = n := by
  unfold natToDec at h
  simp at h
  have h' : ((decDigits (m + 1) (m + 1)).map Nat.digitChar).reverse =
      ((decDigits (n + 1) (n + 1)).map Nat.digitChar).reverse := congrArg String.data h
  have h'' : (decDigits (m + 1) (m + 1)).map Nat.digitChar =
      (decDigits (n + 1) (n + 1)).map Nat.digitChar :=
    List.reverse_injective h'
  have hd : decDigits (m + 1) (m + 1) = decDigits (n + 1) (n + 1) :=
    map_digitChar_inj _ _ (fun d hd => decDigits_lt10 _ _ d hd)
      (fun d hd => decDigits_lt10 _ _ d hd) h''
  have hm := decVal_decDigits (m + 1) (m + 1) (le_refl _)
  have hn := decVal_decDigits (n + 1) (n + 1) (le_refl _)
  rw [hd] at hm
  omega

/-- A pandas cell as seen by `generate_pages`: a string, the float NaN that
pandas puts in an empty cell, or an integer (numeric CSV column). -/
inductive Cell where
  | str (s : String)
  | nan
  | int (n : Int)

/-- Python `str()` applied to a cell: strings unchanged, NaN prints as `nan`,
integers as their decimal numeral. -/
def pyStr : Cell → String
  | Cell.str s => s
  | Cell.nan => "nan"
  | Cell.int n => if n < 0 then "-" ++ natToDec n.natAbs else natToDec n.natAbs

/-- The ASCII whitespace characters Python `str.strip()` removes. -/
def isPySpace (c : Char) : Bool :=
  c == ' ' || c == '\t' || c == '\n' || c == '\r' || c == '\x0b' || c == '\x0c'

/-- Python `str.strip()`: drop leading and trailing whitespace. -/
def pyStrip (s : String) : String :=
  ⟨((s.data.dropWhile isPySpace).reverse.dropWhile isPySpace).reverse⟩

/-- One input row: the `Name` and `phone` cells, absent when the column is
missing from the frame (indexing then raises `KeyError`). -/
structure Row where
  name? : Option Cell
  phone? : Option Cell

/-- One row of the result table: columns `phone`, `name`, `Param1`. -/
structure OutRow where
  phone : String
  name : String
  param1 : String

/-- Everything `generate_pages` produces for one guest: the identifier, the QR
payload and its file name, the HTML file name and text, and the result row. -/
structure GuestOutput where
  guest_id : Nat
  qr_content : String
  qr_filename : String
  html_filename : String
  html : String
  out : OutRow

/-- `BASE_URL` from the source configuration block. -/
def BASE_URL : String := "https://shady-mo20.github.io/qr/"

/-- The WhatsApp link `f"https://wa.me/{phone_clean}"`. -/
def wa_link (phone_clean : String) : String := "https://wa.me/" ++ phone_clean

/-- The QR payload, the four concatenated f-strings of the source. -/
def qr_content_text (guest_id : Nat) (name phone wa : String) : String :=
  ("Guest ID: " ++ natToDec guest_id ++ "\n") ++ ("Name: " ++ name ++ "\n") ++
  ("Phone: " ++ phone ++ "\n") ++ ("WhatsApp: " ++ wa)

/-- `CARD_TEMPLATE.format(...)`: the source template with the five holes
substituted (apostrophes written `\x27`, line breaks `\n`). -/
def card_template (name : String) (guest_id : Nat)
    (phone_link phone_display qr_filename : String) : String :=
  "\n<!doctype html>\n<html lang=\x27en\x27>\n  <head>\n    <meta charset=\x27utf-8\x27>\n    <meta name=\x27viewport\x27 content=\x27width=device-width, initial-scale=1\x27>\n    <link href=\x27https://cdn.jsdelivr.net/npm/bootstrap@5.3.0/dist/css/bootstrap.min.css\x27 rel=\x27stylesheet\x27>\n    "
  ++ ("<title>" ++ name ++ "</title>")
  ++ "\n  </head>\n  <body class=\x27bg-light d-flex justify-content-center align-items-center vh-100\x27>\n    <div class=\x27card shadow-sm\x27 style=\x27width: 22rem;\x27>\n      <img src=\x27"
  ++ ("qr/" ++ qr_filename)
  ++ "\x27 class=\x27card-img-top p-3\x27 alt=\x27QR code\x27\n           style=\x27border-radius:8px;box-shadow:0 0.5rem 1rem rgba(0,0,0,0.15);\x27>\n      <div class=\x27card-body text-center\x27>\n        "
  ++ ("<h4 class=\x27card-title\x27>" ++ name ++ "</h4>")
  ++ "\n        <h6 class=\x27card-subtitle mb-2 text-muted\x27>"
  ++ ("Guest ID #" ++ natToDec guest_id)
  ++ "</h6>\n        <p class=\x27card-text\x27><a "
  ++ ("href=\x27tel:" ++ phone_link ++ "\x27")
  ++ ">"
  ++ phone_display
  ++ "</a></p>\n        <a "
  ++ ("href=\x27https://wa.me/" ++ phone_link ++ "\x27")
  ++ " class=\x27btn btn-success\x27>Chat on WhatsApp</a>\n      </div>\n    </div>\n  </body>\n</html>\n"

/-- Modelled from the spec: Python `urllib.parse.urljoin`, restricted to the
references this program produces (relative path references such as
`guest_1.html`, with no scheme, authority, query or fragment). Standard
URL-join keeps the base up to and including its last slash and appends the
reference. -/
def urljoin (base ref : String) : String :=
  ⟨(base.data.reverse.dropWhile (fun c => c != '/')).reverse ++ ref.data⟩

/-- The body of the `generate_pages` loop for the record at 0-based index
`idx`, after the `Name` and `phone` cells have been read and `str()`-coerced. -/
def buildGuest (idx : Nat) (rawName rawPhone : String) : GuestOutput :=
  { guest_id := idx + 1
    qr_content := qr_content_text (idx + 1) (pyStrip rawName) (pyStrip rawPhone)
      (wa_link (clean_phone (pyStrip rawPhone)))
    qr_filename := "guest_" ++ natToDec (idx + 1) ++ ".png"
    html_filename := "guest_" ++ natToDec (idx + 1) ++ ".html"
    html := card_template (pyStrip rawName) (idx + 1) (clean_phone (pyStrip rawPhone))
      (pyStrip rawPhone) ("guest_" ++ natToDec (idx + 1) ++ ".png")
    out := { phone := pyStrip rawPhone, name := pyStrip rawName,
             param1 := urljoin BASE_URL ("guest_" ++ natToDec (idx + 1) ++ ".html") } }

/-- One loop iteration: `row["Name"]` is read first, then `row["phone"]`; a
missing column raises `KeyError`, otherwise the guest artifacts are built. -/
def processRow (idx : Nat) (r : Row) : Except String GuestOutput :=
  match r.name? with
  | none => Except.error "KeyError: Name"
  | some nc =>
    match r.phone? with
    | none => Except.error "KeyError: phone"
    | some pc => Except.ok (buildGuest idx (pyStr nc) (pyStr pc))

/-- The `generate_pages` loop from 0-based index `k` on: the first raised
error aborts the whole run, otherwise outputs accumulate in input order. -/
def generate_pagesAux : Nat → List Row → Except String (List GuestOutput)
  | _, [] => Except.ok []
  | k, r :: rs =>
    match processRow k r with
    | Except.error e => Except.error e
    | Except.ok g =>
      match generate_pagesAux (k + 1) rs with
      | Except.error e => Except.error e
      | Except.ok gs => Except.ok (g :: gs)

/-- `generate_pages`: process every row of the input frame in order. -/
def generate_pages (df : List Row) : Except String (List GuestOutput) :=
  generate_pagesAux 0 df

/-- Modelled from the spec: a PIL image, reduced to its pixel dimensions and
the payload drawn on it. -/
structure PILImage where
  width : Nat
  height : Nat
  content : String

/-- Modelled from the spec: `Image.resize((w, h))` returns an image of exactly
the requested dimensions. -/
def resizeTo (img : PILImage) (w h : Nat) : PILImage :=
  { img with width := w, height := h }

/-- Modelled from the spec: `qrcode` with `box_size=10, border=4` and
`fit=True` renders one 10-pixel square per module plus a 4-module quiet zone
on each side; `modules` abstracts the module count the fitting chooses for the
payload. -/
def qr_render (modules : Nat) (data : String) : PILImage :=
  { width := (modules + 2 * 4) * 10, height := (modules + 2 * 4) * 10, content := data }

/-- `make_qr`: render the payload, then resize to 600 by 600 before saving. -/
def make_qr (modules : Nat) (data : String) : PILImage :=
  resizeTo (qr_render modules data) 600 600

/-- `t` occurs contiguously inside `s`. -/
def strContains (s t : String) : Prop := ∃ a b : String, s = a ++ t ++ b

/-- Joined with newline separators: the text whose lines are `ls`. -/
def joinLines : List String → String
  | [] => ""
  | [l] => l
  | l :: ls => l ++ "\n" ++ joinLines ls

theorem strContains_refl (t : String) : strContains t t := ⟨"", "", by simp⟩

theorem strContains_appendR (x t : String) : strContains (x ++ t) t :=
  ⟨x, "", by simp⟩

theorem strContains_appL (s b t : String) (h : strContains s t) :
    strContains (s ++ b) t := by
  obtain ⟨x, y, rfl⟩ := h
  exact ⟨x, y ++ b, by simp [String.append_assoc]⟩

theorem strContains_appR (a s t : String) (h : strContains s t) :
    strContains (a ++ s) t := by
  obtain ⟨x, y, rfl⟩ := h
  exact ⟨a ++ x, y, by simp [String.append_assoc]⟩

theorem filter_chain (l : List Char) :
    ((((l.filter (fun a => a != '+')).filter (fun a => a != '-')).filter
        (fun a => a != ' ')).filter (fun a => a != '(')).filter (fun a => a != ')') =
      l.filter (fun c => !(phoneStripChars.contains c)) := by
  simp only [List.filter_filter]
  apply List.filter_congr
  intro a _
  by_cases h1 : a = '+' <;> by_cases h2 : a = '-' <;> by_cases h3 : a = ' ' <;>
    by_cases h4 : a = '(' <;> by_cases h5 : a = ')' <;>
    simp [phoneStripChars, bne, h1, h2, h3, h4, h5]

theorem clean_phone_eq_filter (p : String) :
    clean_phone p = ⟨p.data.filter (fun c => !(phoneStripChars.contains c))⟩ :=
  congrArg String.mk (filter_chain p.data)

theorem urljoin_slash_base (base ref : String) (l : List Char)
    (hl : base.data = l ++ ['/']) : urljoin base ref = base ++ ref := by
  apply String.ext
  show (base.data.reverse.dropWhile (fun c => c != '/')).reverse ++ ref.data =
    (base ++ ref).data
  rw [String.data_append, hl]
  simp [List.dropWhile]

theorem genAux_spec : ∀ (df : List Row) (k : Nat) (outs : List GuestOutput),
    generate_pagesAux k df = Except.ok outs →
    outs.length = df.length ∧
    ∀ i r, df.get? i = some r → ∃ nc pc, r.name? = some nc ∧ r.phone? = some pc ∧
      outs.get? i = some (buildGuest (k + i) (pyStr nc) (pyStr pc)) := by
  intro df
  induction df with
  | nil =>
    intro k outs h
    simp only [generate_pagesAux, Except.ok.injEq] at h
    subst h
    exact ⟨rfl, by intro i r hir; simp at hir⟩
  | cons r rs ih =>
    intro k outs h
    cases hp : processRow k r with
    | error e => simp [generate_pagesAux, hp] at h
    | ok g =>
      cases hr : generate_pagesAux (k + 1) rs with
      | error e => simp [generate_pagesAux, hp, hr] at h
      | ok gs =>
        simp only [generate_pagesAux, hp, hr, Except.ok.injEq] at h
        subst h
        obtain ⟨hlen, hspec⟩ := ih (k + 1) gs hr
        constructor
        · simp [hlen]
        · intro i r' hir
          cases i with
          | zero =>
            simp at hir
            subst hir
            unfold processRow at hp
            cases hn : r.name? with
            | none => rw [hn] at hp; cases hp
            | some nc =>
              rw [hn] at hp
              cases hpc : r.phone? with
              | none => rw [hpc] at hp; cases hp
              | some pc =>
                rw [hpc] at hp
                cases hp
                exact ⟨nc, pc, rfl, rfl, by simp⟩
          | succ j =>
            have hir' : rs.get? j = some r' := hir
            obtain ⟨nc, pc, h1, h2, h3⟩ := hspec j r' hir'
            refine ⟨nc, pc, h1, h2, ?_⟩
            have : (g :: gs).get? (j + 1) = gs.get? j := rfl
            rw [this, h3]
            have : k + 1 + j = k + (j + 1) := by omega
            rw [this]

theorem gen_spec_out (df : List Row) (outs : List GuestOutput)
    (h : generate_pages df = Except.ok outs) (i : Nat) (g : GuestOutput)
    (hg : outs.get? i = some g) :
    ∃ nc pc r, df.get? i = some r ∧ r.name? = some nc ∧ r.phone? = some pc ∧
      g = buildGuest i (pyStr nc) (pyStr pc) := by
  obtain ⟨hlen, hspec⟩ := genAux_spec df 0 outs h
  have hi : i < outs.length := (List.get?_eq_some.mp hg).1
  have hdf : i < df.length := hlen ▸ hi
  obtain ⟨nc, pc, h1, h2, h3⟩ := hspec i _ (List.get?_eq_get hdf)
  rw [Nat.zero_add] at h3
  have h4 : some g = some (buildGuest i (pyStr nc) (pyStr pc)) := by rw [← hg, h3]
  exact ⟨nc, pc, _, List.get?_eq_get hdf, h1, h2, Option.some.inj h4⟩

theorem strContains_prependL (t b : String) : strContains (t ++ b) t :=
  ⟨"", b, by simp [String.append_assoc]⟩

theorem card_template_contains (n : String) (g : Nat) (pl pd qf : String) :
    strContains (card_template n g pl pd qf) ("<title>" ++ n ++ "</title>") ∧
    strContains (card_template n g pl pd qf) ("qr/" ++ qf) ∧
    strContains (card_template n g pl pd qf)
      ("<h4 class=\x27card-title\x27>" ++ n ++ "</h4>") ∧
    strContains (card_template n g pl pd qf) ("Guest ID #" ++ natToDec g) ∧
    strContains (card_template n g pl pd qf) ("href=\x27tel:" ++ pl ++ "\x27") ∧
    strContains (card_template n g pl pd qf) pd ∧
    strContains (card_template n g pl pd qf) ("href=\x27https://wa.me/" ++ pl ++ "\x27") := by
  unfold card_template
  refine ⟨?_, ?_, ?_, ?_, ?_, ?_, ?_⟩ <;>
    repeat first | exact strContains_appendR _ _ | apply strContains_appL

theorem qr_content_lines (g : Nat) (name phone wa : String) :
    qr_content_text g name phone wa =
      joinLines ["Guest ID: " ++ natToDec g, "Name: " ++ name,
        "Phone: " ++ phone, "WhatsApp: " ++ wa] := by
  simp [qr_content_text, joinLines, String.append_assoc]

theorem qr_content_contains (g : Nat) (name phone wa : String) :
    strContains (qr_content_text g name phone wa) ("Guest ID: " ++ natToDec g) ∧
    strContains (qr_content_text g name phone wa) name ∧
    strContains (qr_content_text g name phone wa) phone ∧
    strContains (qr_content_text g name phone wa) wa := by
  unfold qr_content_text
  refine ⟨?_, ?_, ?_, ?_⟩
  · exact strContains_appL _ _ _ (strContains_appL _ _ _ (strContains_appL _ _ _
      (strContains_prependL _ _)))
  · exact strContains_appL _ _ _ (strContains_appL _ _ _ (strContains_appR _ _ _
      (strContains_appL _ _ _ (strContains_appendR _ _))))
  · exact strContains_appL _ _ _ (strContains_appR _ _ _
      (strContains_appL _ _ _ (strContains_appendR _ _)))
  · exact strContains_appR _ _ _ (strContains_appendR _ _)

/-- A concrete one-row input: the spec's example guest. -/
def df0 : List Row :=
  [{ name? := some (Cell.str " Ada Lovelace "), phone? := some (Cell.str "+1 (555) 123-4567") }]

/-- A concrete input whose only record lacks the phone field. -/
def df1 : List Row := [{ name? := some (Cell.str "A"), phone? := none }]

/-- A concrete input with two records of identical name and phone. -/
def df2 : List Row :=
  [{ name? := some (Cell.str "Bob"), phone? := some (Cell.str "123") },
   { name? := some (Cell.str "Bob"), phone? := some (Cell.str "123") }]

/-- C1: every guest record gets as identifier its 1-based input position,
embedded in the payload, both filenames, and the HTML subtitle, whatever the
name and phone cells hold. -/
theorem guest_id_is_position (df : List Row) (outs : List GuestOutput)
    (h : generate_pages df = Except.ok outs) :
    outs.length = df.length ∧
    ∀ i g, outs.get? i = some g →
      g.guest_id = i + 1 ∧
      g.qr_filename = "guest_" ++ natToDec (i + 1) ++ ".png" ∧
      g.html_filename = "guest_" ++ natToDec (i + 1) ++ ".html" ∧
      strContains g.qr_content ("Guest ID: " ++ natToDec (i + 1)) ∧
      strContains g.html ("Guest ID #" ++ natToDec (i + 1)) := by
  refine ⟨(genAux_spec df 0 outs h).1, ?_⟩
  intro i g hg
  obtain ⟨nc, pc, r, hdf, h1, h2, rfl⟩ := gen_spec_out df outs h i g hg
  refine ⟨rfl, rfl, rfl, ?_, ?_⟩
  · exact (qr_content_contains (i + 1) _ _ _).1
  · exact (card_template_contains _ (i + 1) _ _ _).2.2.2.1

/-- Witness for C1: the concrete one-row input, guest 1. -/
theorem guest_id_is_position_witness :
    ((buildGuest 0 " Ada Lovelace " "+1 (555) 123-4567").guest_id = 0 + 1 ∧
      (buildGuest 0 " Ada Lovelace " "+1 (555) 123-4567").qr_filename =
        "guest_" ++ natToDec (0 + 1) ++ ".png" ∧
      (buildGuest 0 " Ada Lovelace " "+1 (555) 123-4567").html_filename =
        "guest_" ++ natToDec (0 + 1) ++ ".html" ∧
      strContains (buildGuest 0 " Ada Lovelace " "+1 (555) 123-4567").qr_content
        ("Guest ID: " ++ natToDec (0 + 1)) ∧
      strContains (buildGuest 0 " Ada Lovelace " "+1 (555) 123-4567").html
        ("Guest ID #" ++ natToDec (0 + 1))) :=
  (guest_id_is_position df0 _ rfl).2 0 _ rfl

/-- C2: `clean_phone` deletes exactly the characters `+ - ( )` and space —
its result is the subsequence of all other characters — and it is
idempotent. -/
theorem clean_phone_removes_exactly (p : String) :
    clean_phone p = ⟨p.data.filter (fun c => !(phoneStripChars.contains c))⟩ ∧
    clean_phone (clean_phone p) = clean_phone p := by
  have key : ∀ l : List Char,
      (l.filter (fun c => !(phoneStripChars.contains c))).filter
          (fun c => !(phoneStripChars.contains c)) =
        l.filter (fun c => !(phoneStripChars.contains c)) := by
    intro l
    rw [List.filter_filter]
    apply List.filter_congr
    intro a _
    exact Bool.and_self _
  refine ⟨clean_phone_eq_filter p, ?_⟩
  rw [clean_phone_eq_filter (clean_phone p), clean_phone_eq_filter p]
  exact congrArg String.mk (key p.data)

/-- C3: the payload of guest `i` is, on separate lines, the identifier line,
the trimmed-name line, the raw trimmed-phone line, and the WhatsApp URL
built from the normalized phone. -/
theorem qr_payload_lines (df : List Row) (outs : List GuestOutput)
    (h : generate_pages df = Except.ok outs) :
    ∀ i g, outs.get? i = some g →
      ∃ nc pc r, df.get? i = some r ∧ r.name? = some nc ∧ r.phone? = some pc ∧
        g.qr_content = joinLines
          ["Guest ID: " ++ natToDec (i + 1),
           "Name: " ++ pyStrip (pyStr nc),
           "Phone: " ++ pyStrip (pyStr pc),
           "WhatsApp: " ++ ("https://wa.me/" ++ clean_phone (pyStrip (pyStr pc)))] := by
  intro i g hg
  obtain ⟨nc, pc, r, hdf, h1, h2, rfl⟩ := gen_spec_out df outs h i g hg
  exact ⟨nc, pc, r, hdf, h1, h2, qr_content_lines (i + 1) _ _ _⟩

/-- Witness for C3: the concrete one-row input, guest 1. -/
theorem qr_payload_lines_witness :
    (∃ nc pc r, df0.get? 0 = some r ∧ r.name? = some nc ∧ r.phone? = some pc ∧
      (buildGuest 0 " Ada Lovelace " "+1 (555) 123-4567").qr_content = joinLines
        ["Guest ID: " ++ natToDec (0 + 1),
         "Name: " ++ pyStrip (pyStr nc),
         "Phone: " ++ pyStrip (pyStr pc),
         "WhatsApp: " ++ ("https://wa.me/" ++ clean_phone (pyStrip (pyStr pc)))]) :=
  qr_payload_lines df0 _ rfl 0 _ rfl

/-- C4: the HTML of guest `i` references `qr/guest_<i>.png`, carries the
trimmed name as title and heading, and links `tel:` and the WhatsApp call to
action to the normalized phone. -/
theorem html_page_contents (df : List Row) (outs : List GuestOutput)
    (h : generate_pages df = Except.ok outs) :
    ∀ i g, outs.get? i = some g →
      ∃ nc pc r, df.get? i = some r ∧ r.name? = some nc ∧ r.phone? = some pc ∧
        strContains g.html ("qr/guest_" ++ natToDec (i + 1) ++ ".png") ∧
        strContains g.html ("<title>" ++ pyStrip (pyStr nc) ++ "</title>") ∧
        strContains g.html
          ("<h4 class=\x27card-title\x27>" ++ pyStrip (pyStr nc) ++ "</h4>") ∧
        strContains g.html
          ("href=\x27tel:" ++ clean_phone (pyStrip (pyStr pc)) ++ "\x27") ∧
        strContains g.html
          ("href=\x27https://wa.me/" ++ clean_phone (pyStrip (pyStr pc)) ++ "\x27") := by
  intro i g hg
  obtain ⟨nc, pc, r, hdf, h1, h2, rfl⟩ := gen_spec_out df outs h i g hg
  obtain ⟨t1, t2, t3, _, t5, _, t7⟩ :=
    card_template_contains (pyStrip (pyStr nc)) (i + 1)
      (clean_phone (pyStrip (pyStr pc))) (pyStrip (pyStr pc))
      ("guest_" ++ natToDec (i + 1) ++ ".png")
  exact ⟨nc, pc, r, hdf, h1, h2, t2, t1, t3, t5, t7⟩

/-- Witness for C4: the concrete one-row input, guest 1. -/
theorem html_page_contents_witness :
    (∃ nc pc r, df0.get? 0 = some r ∧ r.name? = some nc ∧ r.phone? = some pc ∧
      strContains (buildGuest 0 " Ada Lovelace " "+1 (555) 123-4567").html
        ("qr/guest_" ++ natToDec (0 + 1) ++ ".png") ∧
      strContains (buildGuest 0 " Ada Lovelace " "+1 (555) 123-4567").html
        ("<title>" ++ pyStrip (pyStr nc) ++ "</title>") ∧
      strContains (buildGuest 0 " Ada Lovelace " "+1 (555) 123-4567").html
        ("<h4 class=\x27card-title\x27>" ++ pyStrip (pyStr nc) ++ "</h4>") ∧
      strContains (buildGuest 0 " Ada Lovelace " "+1 (555) 123-4567").html
        ("href=\x27tel:" ++ clean_phone (pyStrip (pyStr pc)) ++ "\x27") ∧
      strContains (buildGuest 0 " Ada Lovelace " "+1 (555) 123-4567").html
        ("href=\x27https://wa.me/" ++ clean_phone (pyStrip (pyStr pc)) ++ "\x27")) :=
  html_page_contents df0 _ rfl 0 _ rfl

/-- C5: the public link of guest `i` is the standard URL-join of the
configured base URL and `guest_<i>.html`; since the base ends in a slash this
is the base followed by the filename. -/
theorem public_link_is_urljoin (df : List Row) (outs : List GuestOutput)
    (h : generate_pages df = Except.ok outs) :
    ∀ i g, outs.get? i = some g →
      g.out.param1 = urljoin BASE_URL g.html_filename ∧
      g.html_filename = "guest_" ++ natToDec (i + 1) ++ ".html" ∧
      g.out.param1 = BASE_URL ++ g.html_filename := by
  intro i g hg
  obtain ⟨nc, pc, r, hdf, h1, h2, rfl⟩ := gen_spec_out df outs h i g hg
  refine ⟨rfl, rfl, ?_⟩
  exact urljoin_slash_base _ _ ("https://shady-mo20.github.io/qr".data) (by decide)

/-- Witness for C5: the concrete one-row input, guest 1. -/
theorem public_link_is_urljoin_witness :
    ((buildGuest 0 " Ada Lovelace " "+1 (555) 123-4567").out.param1 =
        urljoin BASE_URL (buildGuest 0 " Ada Lovelace " "+1 (555) 123-4567").html_filename ∧
      (buildGuest 0 " Ada Lovelace " "+1 (555) 123-4567").html_filename =
        "guest_" ++ natToDec (0 + 1) ++ ".html" ∧
      (buildGuest 0 " Ada Lovelace " "+1 (555) 123-4567").out.param1 =
        BASE_URL ++ (buildGuest 0 " Ada Lovelace " "+1 (555) 123-4567").html_filename) :=
  public_link_is_urljoin df0 _ rfl 0 _ rfl

theorem guest_name_inj (pre suf : String) (i j : Nat)
    (h : pre ++ natToDec (i + 1) ++ suf = pre ++ natToDec (j + 1) ++ suf) : i = j := by
  have hd := congrArg String.data h
  simp only [String.data_append] at hd
  rw [List.append_assoc, List.append_assoc] at hd
  have h2 := List.append_cancel_left hd
  have h3 := List.append_cancel_right h2
  exact natToDec_succ_inj _ _ (String.ext h3)

/-- C6: the result table has one row per input row, in order, each holding
exactly the trimmed name, the trimmed raw phone, and the public link —
nothing else is altered. -/
theorem result_rows_roundtrip (df : List Row) (outs : List GuestOutput)
    (h : generate_pages df = Except.ok outs) :
    outs.length = df.length ∧
    ∀ i r, df.get? i = some r → ∃ nc pc, r.name? = some nc ∧ r.phone? = some pc ∧
      ∃ g, outs.get? i = some g ∧
        g.out = { phone := pyStrip (pyStr pc), name := pyStrip (pyStr nc),
                  param1 := urljoin BASE_URL ("guest_" ++ natToDec (i + 1) ++ ".html") } := by
  obtain ⟨hlen, hspec⟩ := genAux_spec df 0 outs h
  refine ⟨hlen, ?_⟩
  intro i r hir
  obtain ⟨nc, pc, h1, h2, h3⟩ := hspec i r hir
  rw [Nat.zero_add] at h3
  exact ⟨nc, pc, h1, h2, buildGuest i (pyStr nc) (pyStr pc), h3, rfl⟩

/-- Witness for C6: the concrete one-row input, guest 1. -/
theorem result_rows_roundtrip_witness :
    (∃ nc pc,
      ({ name? := some (Cell.str " Ada Lovelace "),
         phone? := some (Cell.str "+1 (555) 123-4567") } : Row).name? = some nc ∧
      ({ name? := some (Cell.str " Ada Lovelace "),
         phone? := some (Cell.str "+1 (555) 123-4567") } : Row).phone? = some pc ∧
      ∃ g, [buildGuest 0 " Ada Lovelace " "+1 (555) 123-4567"].get? 0 = some g ∧
        g.out = { phone := pyStrip (pyStr pc), name := pyStrip (pyStr nc),
                  param1 := urljoin BASE_URL ("guest_" ++ natToDec (0 + 1) ++ ".html") }) :=
  (result_rows_roundtrip df0 _ rfl).2 0 _ rfl

/-- C7: a record missing its name or phone field makes the whole run fail
with a key error, and no result table is produced at all. -/
theorem missing_field_aborts (df : List Row)
    (h : ∃ i r, df.get? i = some r ∧ (r.name? = none ∨ r.phone? = none)) :
    (∃ e, generate_pages df = Except.error e) ∧
    ∀ outs, generate_pages df ≠ Except.ok outs := by
  have key : ∀ (l : List Row) (k : Nat),
      (∃ i r, l.get? i = some r ∧ (r.name? = none ∨ r.phone? = none)) →
      ∃ e, generate_pagesAux k l = Except.error e := by
    intro l
    induction l with
    | nil =>
      intro k hex
      obtain ⟨i, r, hir, _⟩ := hex
      simp at hir
    | cons r rs ih =>
      intro k hex
      obtain ⟨i, r', hir, hbad⟩ := hex
      cases hi : processRow k r with
      | error e => exact ⟨e, by simp [generate_pagesAux, hi]⟩
      | ok g =>
        cases i with
        | zero =>
          simp at hir
          subst hir
          unfold processRow at hi
          rcases hbad with hb | hb
          · rw [hb] at hi; cases hi
          · cases hn : r.name? with
            | none => rw [hn] at hi; cases hi
            | some nc => rw [hn, hb] at hi; cases hi
        | succ j =>
          obtain ⟨e, he⟩ := ih (k + 1) ⟨j, r', hir, hbad⟩
          exact ⟨e, by simp [generate_pagesAux, hi, he]⟩
  obtain ⟨e, he⟩ := key df 0 h
  refine ⟨⟨e, he⟩, ?_⟩
  intro outs hok
  rw [generate_pages] at hok
  rw [he] at hok
  cases hok

/-- Witness for C7: the concrete input whose record lacks the phone. -/
theorem missing_field_aborts_witness :
    (∃ e, generate_pages df1 = Except.error e) :=
  (missing_field_aborts df1
    ⟨0, { name? := some (Cell.str "A"), phone? := none }, rfl, Or.inr rfl⟩).1

/-- C8: two guests at distinct positions — even with identical name and phone
cells — get distinct identifiers and distinct image and HTML filenames. -/
theorem ids_and_filenames_distinct (df : List Row) (outs : List GuestOutput)
    (h : generate_pages df = Except.ok outs) (i j : Nat) (gi gj : GuestOutput)
    (hi : outs.get? i = some gi) (hj : outs.get? j = some gj) (hne : i ≠ j) :
    gi.guest_id ≠ gj.guest_id ∧ gi.qr_filename ≠ gj.qr_filename ∧
    gi.html_filename ≠ gj.html_filename := by
  obtain ⟨nci, pci, ri, _, _, _, rfl⟩ := gen_spec_out df outs h i gi hi
  obtain ⟨ncj, pcj, rj, _, _, _, rfl⟩ := gen_spec_out df outs h j gj hj
  refine ⟨?_, ?_, ?_⟩
  · intro hh
    have hh' : i + 1 = j + 1 := hh
    exact hne (Nat.succ_injective hh')
  · intro hh
    exact hne (guest_name_inj "guest_" ".png" i j hh)
  · intro hh
    exact hne (guest_name_inj "guest_" ".html" i j hh)

/-- Witness for C8 at the concrete two-identical-row input. -/
theorem ids_and_filenames_distinct_witness :
    ((buildGuest 0 "Bob" "123").guest_id ≠ (buildGuest 1 "Bob" "123").guest_id ∧
      (buildGuest 0 "Bob" "123").qr_filename ≠ (buildGuest 1 "Bob" "123").qr_filename ∧
      (buildGuest 0 "Bob" "123").html_filename ≠ (buildGuest 1 "Bob" "123").html_filename) :=
  ids_and_filenames_distinct df2 [buildGuest 0 "Bob" "123", buildGuest 1 "Bob" "123"]
    rfl 0 1 _ _ rfl rfl (by decide)

/-- C9: whatever module count the fitting step chooses for the payload, the
saved image is exactly 600 by 600 pixels and carries the payload. -/
theorem qr_image_is_600 (modules : Nat) (data : String) :
    (make_qr modules data).width = 600 ∧ (make_qr modules data).height = 600 ∧
    (make_qr modules data).content = data :=
  ⟨rfl, rfl, rfl⟩

/-- C10: non-string cells are not rejected: any pair of present cells is
processed, NaN is coerced to the text `nan`, a non-negative integer to its
decimal numeral, and the coerced, trimmed strings flow verbatim into the
output record, the payload, and the HTML. -/
theorem non_string_cells_coerced (idx : Nat) (nc pc : Cell) :
    processRow idx { name? := some nc, phone? := some pc } =
      Except.ok (buildGuest idx (pyStr nc) (pyStr pc)) ∧
    pyStr Cell.nan = "nan" ∧
    pyStrip (pyStr Cell.nan) = "nan" ∧
    (∀ m : Nat, pyStr (Cell.int (Int.ofNat m)) = natToDec m) ∧
    (buildGuest idx (pyStr nc) (pyStr pc)).out.phone = pyStrip (pyStr pc) ∧
    (buildGuest idx (pyStr nc) (pyStr pc)).out.name = pyStrip (pyStr nc) ∧
    strContains (buildGuest idx (pyStr nc) (pyStr pc)).qr_content (pyStrip (pyStr pc)) ∧
    strContains (buildGuest idx (pyStr nc) (pyStr pc)).html (pyStrip (pyStr pc)) := by
  refine ⟨rfl, rfl, rfl, ?_, rfl, rfl, ?_, ?_⟩
  · intro m
    simp [pyStr, natToDec]
  · exact (qr_content_contains (idx + 1) _ _ _).2.2.1
  · exact (card_template_contains _ (idx + 1) _ _ _).2.2.2.2.2.1

end GuestPages
